import Mathlib

set_option maxHeartbeats 1000000

namespace DBDoc

/-- A row of the customers table (DBTemplate.sql lines 27-36).  CustomerID is
the AUTO_INCREMENT primary key; every other column is a nullable varchar. -/
structure Customer where
  customerID : Nat
  firstName : Option String
  surName : Option String
  phone : Option String
  email : Option String
  postCode : Option String
  doorNumber : Option String
  deriving Repr, DecidableEq

/-- The Status enum of the jobs table (DBTemplate.sql line 50). -/
inductive Status where
  | inProgress
  | completed
  | cancelled
  | waitingForParts
  | pickedUp
  deriving Repr, DecidableEq

/-- A row of the jobs table (DBTemplate.sql lines 39-57).  JobID is the
AUTO_INCREMENT primary key; CustomerID is a nullable foreign key with
ON DELETE SET NULL.  Datetime values are modelled as integers.  The Status
column defaults to In Progress and the code under inspection only ever
stores concrete statuses, so it is kept non-null here. -/
structure Job where
  jobID : Nat
  customerID : Option Nat
  technician : Option String
  deviceBrand : Option String
  deviceType : Option String
  deviceModel : Option String
  extras : Option String
  issue : Option String
  dataSave : Option Nat
  password : Option String
  status : Status
  notes : Option String
  startDate : Option Int
  endDate : Option Int
  deriving Repr, DecidableEq

/-- A row of the communications table (DBTemplate.sql lines 3-12); its JobID
foreign key has ON DELETE CASCADE. -/
structure Communication where
  communicationID : Nat
  jobID : Option Nat
  communicationType : Option String
  dateTime : Option Int
  note : Option String
  deriving Repr, DecidableEq

/-- A row of the costs table (DBTemplate.sql lines 15-24). -/
structure Cost where
  costID : Nat
  jobID : Option Nat
  costType : Option String
  amount : Option Int
  description : Option String
  deriving Repr, DecidableEq

/-- A row of the orders table (DBTemplate.sql lines 60-70). -/
structure OrderRow where
  partID : Nat
  jobID : Option Nat
  orderDate : Option Int
  description : Option String
  quantity : Option Int
  totalCost : Option Int
  deriving Repr, DecidableEq

/-- A row of the payments table (DBTemplate.sql lines 73-82). -/
structure Payment where
  paymentID : Nat
  jobID : Option Nat
  date : Option Int
  amount : Option Int
  paymentType : Option String
  deriving Repr, DecidableEq

/-- A row of the HowHeard table (DBTemplate.sql lines 93-98).  JobID is the
primary key, so at most one row may exist per job, and it is a foreign key
into jobs. -/
structure HowHeardRow where
  jobID : Nat
  howHeard : Option String
  deriving Repr, DecidableEq

/-- The storage state: the seven tables the engine touches, plus the
AUTO_INCREMENT counters of customers and jobs.  Tables are lists in row
order; SQL SELECT without ORDER BY is modelled as scanning in row order. -/
structure DBState where
  customers : List Customer
  jobs : List Job
  howHeard : List HowHeardRow
  communications : List Communication
  orders : List OrderRow
  costs : List Cost
  payments : List Payment
  nextCustomerId : Nat
  nextJobId : Nat
  deriving Repr, DecidableEq

/-- SQL MAX over a list of values: none on the empty list, otherwise the
greatest element. -/
def listMax {α : Type} [LinearOrder α] : List α → Option α
  | [] => none
  | x :: xs =>
    match listMax xs with
    | none => some x
    | some m => some (max x m)

/-- The WHERE clause of the customer lookup in POST /submit
(backend.js lines 123-126): FirstName = ? AND SurName = ? AND Email = ?.
A stored NULL never equals a supplied value, matching SQL comparison. -/
def matchesTriple (firstName lastName email : String) (c : Customer) : Bool :=
  c.firstName = some firstName && c.surName = some lastName && c.email = some email

/-- The row the customer INSERT of POST /submit writes (backend.js
lines 138-141): all six supplied fields, with the next AUTO_INCREMENT
identifier. -/
def newCustomer (st : DBState)
    (firstName lastName phone email postCode doorNumber : String) : Customer :=
  { customerID := st.nextCustomerId
    firstName := some firstName
    surName := some lastName
    phone := some phone
    email := some email
    postCode := some postCode
    doorNumber := some doorNumber }

/-- Step 1 of POST /submit (backend.js lines 122-145), the customer
resolver: SELECT the first customer whose (FirstName, SurName, Email)
triple equals the supplied one; if none, INSERT a new customer with all six
supplied fields, allocating the next AUTO_INCREMENT identifier. -/
def resolveCustomer (st : DBState)
    (firstName lastName phone email postCode doorNumber : String) :
    Nat × DBState :=
  match st.customers.find? (matchesTriple firstName lastName email) with
  | some c => (c.customerID, st)
  | none =>
    (st.nextCustomerId,
      { st with
          customers := st.customers ++
            [newCustomer st firstName lastName phone email postCode doorNumber]
          nextCustomerId := st.nextCustomerId + 1 })

/-- GET /next-job-id (backend.js lines 71-80): SELECT MAX(jobID) FROM jobs,
then the handler computes result.maxJobID ? result.maxJobID : 1, so both a
NULL max (no jobs) and a zero max fall back to 1 by JavaScript truthiness,
and otherwise the maximum itself (not the maximum plus one) is returned. -/
def nextJobIdQuery (st : DBState) : Nat :=
  match listMax (st.jobs.map (fun j => j.jobID)) with
  | none => 1
  | some m => if m = 0 then 1 else m

/-- The errors POST /submit can report: the missing-jobID guard at
backend.js line 118, and the two ways the HowHeard INSERT at lines 156-159
can be rejected by the storage layer: a duplicate primary key (a HowHeard
row for this job already exists) or a foreign-key violation (no job with
this JobID exists). -/
inductive SubmitError where
  | jobIdRequired
  | duplicateHowHeard
  | howHeardFKViolation
  deriving Repr, DecidableEq

/-- The SET clause of the job UPDATE in POST /submit (backend.js
lines 148-151), applied to rows whose JobID matches: customer reference,
device fields, issue, data-save flag, password, Status = In Progress and
StartDate = NOW are written; all other columns keep their values. -/
def updateJobRow (customerId : Nat) (deviceBrand deviceType issue : String)
    (dataSaveValue : Nat) (password : String) (now : Int) (jobID : Nat)
    (j : Job) : Job :=
  if j.jobID = jobID then
    { j with
        customerID := some customerId
        deviceBrand := some deviceBrand
        deviceType := some deviceType
        issue := some issue
        dataSave := some dataSaveValue
        password := some password
        status := Status.inProgress
        startDate := some now }
  else j

/-- Step 2 of POST /submit (backend.js lines 147-151): UPDATE jobs SET ...
WHERE jobID = ?.  Updating zero rows is not an error in SQL, so a missing
job passes through silently. -/
def submitStep2 (st : DBState) (customerId : Nat)
    (deviceBrand deviceType issue : String) (dataSaveValue : Nat)
    (password : String) (now : Int) (jobID : Nat) : DBState :=
  { st with
      jobs := st.jobs.map
        (updateJobRow customerId deviceBrand deviceType issue dataSaveValue
          password now jobID) }

/-- Step 3 of POST /submit (backend.js lines 155-159): INSERT INTO HowHeard
(JobID, HowHeard) VALUES (?, ?).  The insert is rejected when a row with
this primary key already exists, or when the JobID foreign key references
no job; either rejection aborts the handler but rolls nothing back. -/
def submitStep3 (st : DBState) (jobID : Nat) (howHeard : String) :
    Option SubmitError × DBState :=
  if ∃ h0 ∈ st.howHeard, h0.jobID = jobID then
    (some SubmitError.duplicateHowHeard, st)
  else if ∃ j ∈ st.jobs, j.jobID = jobID then
    (none,
      { st with
          howHeard := st.howHeard ++ [{ jobID := jobID, howHeard := some howHeard }] })
  else
    (some SubmitError.howHeardFKViolation, st)

/-- POST /submit (backend.js lines 105-170), the submission finalizer.  The
handler guards on a falsy jobID, then runs the three storage steps as
separate awaited statements with no enclosing transaction: the state
returned on an error is whatever the completed earlier steps produced.
The dataSave boolean is encoded as 1 or 0 (line 109). -/
def submit (st : DBState) (now : Int) (jobID : Nat)
    (firstName lastName phone email doorNumber postCode howHeard
      deviceType deviceBrand issue password : String) (dataSave : Bool) :
    Option SubmitError × DBState :=
  if jobID = 0 then (some SubmitError.jobIdRequired, st)
  else
    let r := resolveCustomer st firstName lastName phone email postCode doorNumber
    submitStep3
      (submitStep2 r.2 r.1 deviceBrand deviceType issue
        (if dataSave then 1 else 0) password now jobID)
      jobID howHeard

/-- The effect of the two BEFORE DELETE triggers (Procedures.txt lines 5-39)
on one job row of the deleted customer, combined with the jobs table
foreign key ON DELETE SET NULL (DBTemplate.sql line 56): the Password
column is nulled and the customer reference becomes null; every other
column survives. -/
def scrubJob (cid : Nat) (j : Job) : Job :=
  if j.customerID = some cid then { j with password := none, customerID := none }
  else j

/-- DELETE of a single customers row: the BEFORE DELETE triggers null the
passwords of the jobs of this customer and delete the communications rows
of those jobs (Procedures.txt lines 5-39), the row itself is removed, and
the jobs foreign key sets the customer reference of its jobs to NULL.
Orders, costs and payments reference jobs, not customers, so they are
untouched. -/
def deleteCustomerRow (st : DBState) (cid : Nat) : DBState :=
  { st with
      customers := st.customers.filter (fun c => c.customerID ≠ cid)
      jobs := st.jobs.map (scrubJob cid)
      communications := st.communications.filter
        (fun com => ¬ ∃ j ∈ st.jobs, j.customerID = some cid ∧ com.jobID = some j.jobID) }

/-- The jobs of one customer: SELECT ... FROM jobs WHERE CustomerID = cid,
as grouped by the sweep query (Procedures.txt lines 52-55). -/
def jobsOfCustomer (jobs : List Job) (cid : Nat) : List Job :=
  jobs.filter (fun j => j.customerID = some cid)

/-- MAX(StartDate) of a group of job rows: SQL MAX ignores NULL start dates
and is NULL on a group with no non-null value. -/
def maxStartDate (js : List Job) : Option Int :=
  listMax (js.filterMap (fun j => j.startDate))

/-- The HAVING clause of the sweep (Procedures.txt line 55) for one
CustomerID group: MAX(StartDate) < cutoff.  A NULL group maximum makes the
comparison NULL, which HAVING treats as not selected. -/
def isExpired (jobs : List Job) (cutoff : Int) (cid : Nat) : Bool :=
  match maxStartDate (jobsOfCustomer jobs cid) with
  | none => false
  | some m => m < cutoff

/-- The temp_old_customers table of DeleteOldCustomers (Procedures.txt
lines 52-55): SELECT CustomerID FROM jobs GROUP BY CustomerID HAVING
MAX(StartDate) < cutoff.  Grouping jobs produces one group per distinct
CustomerID occurring in jobs; the NULL group never matches any customers
row, so only the non-null identifiers are collected.  Customers with zero
job rows never appear here. -/
def expiredCustomerIds (jobs : List Job) (cutoff : Int) : List Nat :=
  ((jobs.filterMap (fun j => j.customerID)).dedup).filter (isExpired jobs cutoff)

/-- The sequence value DeleteOldCustomers installs after the purge
(Procedures.txt lines 61-77): 1 when COUNT of customers is zero, otherwise
MAX(CustomerID) + 1 over the remaining rows. -/
def compactedSeq (customers : List Customer) : Nat :=
  if customers.isEmpty then 1
  else (listMax (customers.map (fun c => c.customerID))).getD 0 + 1

/-- The stored procedure DeleteOldCustomers (Procedures.txt lines 47-81):
collect the expired customer identifiers, DELETE the matching customers
rows (each deletion firing the BEFORE DELETE triggers row by row), then
reset the customers AUTO_INCREMENT as compactedSeq describes.  The first
component is the number of customers rows the DELETE removed. -/
def sweepExpiredCustomers (st : DBState) (now retentionWindow : Int) :
    Nat × DBState :=
  let cutoff := now - retentionWindow
  let sel := expiredCustomerIds st.jobs cutoff
  let purged := (st.customers.filter (fun c => c.customerID ∈ sel)).length
  let st1 := sel.foldl deleteCustomerRow st
  (purged, { st1 with nextCustomerId := compactedSeq st1.customers })

/-- Proof helper: the combined effect of deleting every customer in cids on
one job row, used to describe a fold of deleteCustomerRow in one map. -/
def scrubJobMulti (cids : List Nat) (j : Job) : Job :=
  match j.customerID with
  | some c => if c ∈ cids then { j with password := none, customerID := none } else j
  | none => j

/-- The row POST /api/reserve-job inserts (backend.js lines 86-88): every
field NULL except Status = In Progress and StartDate = NOW. -/
def reservedJob (i : Nat) (now : Int) : Job :=
  { jobID := i, customerID := none, technician := none, deviceBrand := none
    deviceType := none, deviceModel := none, extras := none, issue := none
    dataSave := none, password := none, status := Status.inProgress
    notes := none, startDate := some now, endDate := none }

/-- An empty storage state with fresh counters, used for concrete runs. -/
def emptyState : DBState :=
  { customers := [], jobs := [], howHeard := [], communications := []
    orders := [], costs := [], payments := [], nextCustomerId := 1, nextJobId := 1 }

/-- A concrete customer row used in concrete runs. -/
def sampleCustomer : Customer :=
  { customerID := 7, firstName := some "Jane", surName := some "Doe"
    phone := some "111", email := some "jane@x.com", postCode := some "AB1"
    doorNumber := some "12" }

/-- A state with one reserved, unfinalized job. -/
def stReserved : DBState :=
  { emptyState with jobs := [reservedJob 1 0], nextJobId := 2 }

/-- A state where job 1 exists and a HowHeard row for it is already
present. -/
def stDupHH : DBState :=
  { stReserved with howHeard := [{ jobID := 1, howHeard := some "ad" }] }

/-- A state with one customer that has zero job rows. -/
def stZeroJobsCust : DBState :=
  { emptyState with customers := [sampleCustomer], nextCustomerId := 8 }

/-- A state where customer 7 has one old job (start 0) carrying a password,
one communication on that job, and one order, cost and payment row. -/
def stOldJob : DBState :=
  { emptyState with
      customers := [sampleCustomer]
      jobs := [{ reservedJob 3 0 with customerID := some 7, password := some "secret" }]
      communications := [{ communicationID := 1, jobID := some 3
                           communicationType := none, dateTime := none, note := none }]
      orders := [{ partID := 1, jobID := some 3, orderDate := none
                   description := none, quantity := none, totalCost := none }]
      costs := [{ costID := 1, jobID := some 3, costType := none
                  amount := none, description := none }]
      payments := [{ paymentID := 1, jobID := some 3, date := none
                     amount := none, paymentType := none }]
      nextCustomerId := 8
      nextJobId := 4 }

/-- A state where customer 7 has one recent job (start 900). -/
def stRecentJob : DBState :=
  { emptyState with
      customers := [sampleCustomer]
      jobs := [{ reservedJob 3 900 with customerID := some 7 }]
      nextCustomerId := 8
      nextJobId := 4 }

/-- A state holding two reserved jobs with identifiers 2 and 5. -/
def stTwoJobs : DBState :=
  { emptyState with jobs := [reservedJob 2 0, reservedJob 5 0], nextJobId := 6 }

theorem listMax_eq_none_iff {α : Type} [LinearOrder α] {l : List α} :
    listMax l = none ↔ l = [] := by
  cases l with
  | nil => simp [listMax]
  | cons x xs =>
    unfold listMax
    cases h : listMax xs <;> simp

theorem listMax_mem {α : Type} [LinearOrder α] {l : List α} {m : α}
    (h : listMax l = some m) : m ∈ l := by
  induction l generalizing m with
  | nil => simp [listMax] at h
  | cons x xs ih =>
    unfold listMax at h
    cases hx : listMax xs with
    | none =>
      rw [hx] at h
      simp at h
      simp [h]
    | some m2 =>
      rw [hx] at h
      simp at h
      rcases max_choice x m2 with hc | hc <;> rw [hc] at h
      · simp [h]
      · exact List.mem_cons_of_mem x (h ▸ ih hx)

theorem le_listMax {α : Type} [LinearOrder α] {l : List α} {a m : α}
    (ha : a ∈ l) (h : listMax l = some m) : a ≤ m := by
  induction l generalizing m with
  | nil => simp at ha
  | cons x xs ih =>
    unfold listMax at h
    cases hx : listMax xs with
    | none =>
      rw [hx] at h
      simp at h
      have hxs : xs = [] := listMax_eq_none_iff.mp hx
      subst hxs
      simp at ha
      simp [ha, h]
    | some m2 =>
      rw [hx] at h
      simp at h
      rcases List.mem_cons.mp ha with rfl | hmem
      · exact h ▸ le_max_left a m2
      · exact le_trans (ih hmem hx) (h ▸ le_max_right x m2)

theorem find?_append_of_none {α : Type} {p : α → Bool} {l1 l2 : List α}
    (h : l1.find? p = none) : (l1 ++ l2).find? p = l2.find? p := by
  simp [List.find?_append, h]

theorem resolveCustomer_found (st : DBState)
    (firstName lastName phone email postCode doorNumber : String) (c : Customer)
    (h : st.customers.find? (matchesTriple firstName lastName email) = some c) :
    resolveCustomer st firstName lastName phone email postCode doorNumber =
      (c.customerID, st) := by
  unfold resolveCustomer
  rw [h]

theorem resolveCustomer_inserts (st : DBState)
    (firstName lastName phone email postCode doorNumber : String)
    (h : st.customers.find? (matchesTriple firstName lastName email) = none) :
    resolveCustomer st firstName lastName phone email postCode doorNumber =
      (st.nextCustomerId,
        { st with
            customers := st.customers ++
              [newCustomer st firstName lastName phone email postCode doorNumber]
            nextCustomerId := st.nextCustomerId + 1 }) := by
  unfold resolveCustomer
  rw [h]

theorem resolveCustomer_jobs (st : DBState)
    (firstName lastName phone email postCode doorNumber : String) :
    (resolveCustomer st firstName lastName phone email postCode doorNumber).2.jobs =
      st.jobs := by
  unfold resolveCustomer
  cases st.customers.find? (matchesTriple firstName lastName email) <;> rfl

theorem resolveCustomer_howHeard (st : DBState)
    (firstName lastName phone email postCode doorNumber : String) :
    (resolveCustomer st firstName lastName phone email postCode doorNumber).2.howHeard =
      st.howHeard := by
  unfold resolveCustomer
  cases st.customers.find? (matchesTriple firstName lastName email) <;> rfl

/-- C7: two sequential ResolveCustomer calls with the same identity triple
return the same CustomerID, and across the two calls exactly one Customer
row is created when no row matched the triple initially, zero rows when one
already matched. -/
theorem resolveCustomer_sequential_idempotent (st : DBState)
    (firstName lastName phone email postCode doorNumber : String) :
    ((resolveCustomer
        (resolveCustomer st firstName lastName phone email postCode doorNumber).2
        firstName lastName phone email postCode doorNumber).1 =
      (resolveCustomer st firstName lastName phone email postCode doorNumber).1) ∧
    ((resolveCustomer
        (resolveCustomer st firstName lastName phone email postCode doorNumber).2
        firstName lastName phone email postCode doorNumber).2.customers.length =
      st.customers.length +
        (if ∃ c ∈ st.customers, matchesTriple firstName lastName email c then 0 else 1)) := by
  cases h : st.customers.find? (matchesTriple firstName lastName email) with
  | some c =>
    rw [resolveCustomer_found st firstName lastName phone email postCode doorNumber c h]
    rw [resolveCustomer_found st firstName lastName phone email postCode doorNumber c h]
    refine ⟨rfl, ?_⟩
    rw [if_pos ⟨c, List.mem_of_find?_eq_some h, List.find?_some h⟩]
    rfl
  | none =>
    rw [resolveCustomer_inserts st firstName lastName phone email postCode doorNumber h]
    have hmatch : matchesTriple firstName lastName email
        (newCustomer st firstName lastName phone email postCode doorNumber) = true := by
      simp [matchesTriple, newCustomer]
    have hfind2 : (st.customers ++
        [newCustomer st firstName lastName phone email postCode doorNumber]).find?
          (matchesTriple firstName lastName email) =
        some (newCustomer st firstName lastName phone email postCode doorNumber) := by
      rw [find?_append_of_none h]
      simp [List.find?_cons_of_pos _ hmatch]
    rw [resolveCustomer_found _ firstName lastName phone email postCode doorNumber _ hfind2]
    have hnone : ¬ ∃ c ∈ st.customers, matchesTriple firstName lastName email c := by
      rintro ⟨c, hc, hm⟩
      exact (List.find?_eq_none.mp h c hc) hm
    refine ⟨rfl, ?_⟩
    rw [if_neg hnone]
    simp [newCustomer]

/-- C8: when a stored customer row matches the supplied identity triple
exactly, ResolveCustomer returns the identifier of that row and the whole
storage state unchanged; in particular the stored phone and address fields
survive even when the supplied ones differ. -/
theorem resolveCustomer_match_frame (st : DBState)
    (firstName lastName phone email postCode doorNumber : String) (c : Customer)
    (h : st.customers.find? (matchesTriple firstName lastName email) = some c) :
    resolveCustomer st firstName lastName phone email postCode doorNumber =
      (c.customerID, st) :=
  resolveCustomer_found st firstName lastName phone email postCode doorNumber c h

theorem resolveCustomer_match_frame_witness :
    resolveCustomer stZeroJobsCust "Jane" "Doe" "999" "jane@x.com" "ZZ9" "99" =
      (7, stZeroJobsCust) :=
  resolveCustomer_match_frame stZeroJobsCust "Jane" "Doe" "999" "jane@x.com" "ZZ9" "99"
    sampleCustomer (by decide)

/-- C10: the next-job-id query returns 1 when no job rows exist, and with
job rows present (all identifiers positive, as AUTO_INCREMENT allocates)
it returns the maximum existing job identifier itself, an identifier
already in use, rather than that maximum plus one. -/
theorem nextJobIdQuery_returns_max_in_use (st : DBState) :
    (st.jobs = [] → nextJobIdQuery st = 1) ∧
    (st.jobs ≠ [] → (∀ j ∈ st.jobs, 1 ≤ j.jobID) →
      ∃ j ∈ st.jobs, nextJobIdQuery st = j.jobID ∧
        ∀ j2 ∈ st.jobs, j2.jobID ≤ j.jobID) := by
  constructor
  · intro h
    simp [nextJobIdQuery, h, listMax]
  · intro hne hpos
    cases hmax : listMax (st.jobs.map (fun j => j.jobID)) with
    | none =>
      have := listMax_eq_none_iff.mp hmax
      rw [List.map_eq_nil_iff] at this
      exact absurd this hne
    | some m =>
      obtain ⟨j, hj, hjm⟩ := List.mem_map.mp (listMax_mem hmax)
      have h1m : 1 ≤ m := hjm ▸ hpos j hj
      refine ⟨j, hj, ?_, ?_⟩
      · unfold nextJobIdQuery
        rw [hmax]
        show (if m = 0 then 1 else m) = j.jobID
        rw [if_neg (by omega)]
        exact hjm.symm
      · intro j2 hj2
        have h2 : j2.jobID ≤ m :=
          le_listMax (List.mem_map_of_mem (fun j => j.jobID) hj2) hmax
        omega

theorem nextJobIdQuery_witness :
    ∃ j ∈ stTwoJobs.jobs, nextJobIdQuery stTwoJobs = j.jobID ∧
      ∀ j2 ∈ stTwoJobs.jobs, j2.jobID ≤ j.jobID :=
  (nextJobIdQuery_returns_max_in_use stTwoJobs).2 (by decide) (by decide)

theorem submit_eq (st : DBState) (now : Int) (jobID : Nat)
    (firstName lastName phone email doorNumber postCode howHeard
      deviceType deviceBrand issue password : String) (dataSave : Bool)
    (hjz : jobID ≠ 0) :
    submit st now jobID firstName lastName phone email doorNumber postCode
        howHeard deviceType deviceBrand issue password dataSave =
      submitStep3
        (submitStep2
          (resolveCustomer st firstName lastName phone email postCode doorNumber).2
          (resolveCustomer st firstName lastName phone email postCode doorNumber).1
          deviceBrand deviceType issue (if dataSave then 1 else 0) password now jobID)
        jobID howHeard := by
  unfold submit
  rw [if_neg hjz]

theorem submitStep3_dup (st : DBState) (jobID : Nat) (howHeard : String)
    (h1 : ∃ h0 ∈ st.howHeard, h0.jobID = jobID) :
    submitStep3 st jobID howHeard = (some SubmitError.duplicateHowHeard, st) := by
  unfold submitStep3
  rw [if_pos h1]

theorem submitStep3_ok (st : DBState) (jobID : Nat) (howHeard : String)
    (h1 : ¬ ∃ h0 ∈ st.howHeard, h0.jobID = jobID)
    (h2 : ∃ j ∈ st.jobs, j.jobID = jobID) :
    submitStep3 st jobID howHeard =
      (none,
        { st with
            howHeard := st.howHeard ++ [{ jobID := jobID, howHeard := some howHeard }] }) := by
  unfold submitStep3
  rw [if_neg h1, if_pos h2]

theorem submitStep3_fk (st : DBState) (jobID : Nat) (howHeard : String)
    (h1 : ¬ ∃ h0 ∈ st.howHeard, h0.jobID = jobID)
    (h2 : ¬ ∃ j ∈ st.jobs, j.jobID = jobID) :
    submitStep3 st jobID howHeard = (some SubmitError.howHeardFKViolation, st) := by
  unfold submitStep3
  rw [if_neg h1, if_neg h2]

theorem mem_map_updateJobRow {jobs : List Job} {cid : Nat} {db dt iss : String}
    {dsv : Nat} {pw : String} {now : Int} {jid : Nat} {j : Job}
    (hj : j ∈ jobs.map (updateJobRow cid db dt iss dsv pw now jid))
    (hid : j.jobID = jid) :
    j.customerID = some cid ∧ j.deviceBrand = some db ∧ j.deviceType = some dt ∧
    j.issue = some iss ∧ j.dataSave = some dsv ∧ j.password = some pw ∧
    j.status = Status.inProgress ∧ j.startDate = some now := by
  obtain ⟨j0, hj0, rfl⟩ := List.mem_map.mp hj
  unfold updateJobRow at hid ⊢
  by_cases h : j0.jobID = jid
  · rw [if_pos h]
    exact ⟨rfl, rfl, rfl, rfl, rfl, rfl, rfl, rfl⟩
  · rw [if_neg h] at hid
    exact absurd hid h

/-- C1 (amended): a FinalizeSubmission call whose jobID references no Job
fails, because the HowHeard insert is rejected by its foreign key; no Job
row is updated and no HowHeard row is inserted, but storage is not
necessarily unchanged: the customer-resolution step has already run, so a
new Customer row may have been inserted and remains after the failure. -/
theorem finalize_missing_job_outcome (st : DBState) (now : Int)
    (jobID : Nat)
    (firstName lastName phone email doorNumber postCode howHeard
      deviceType deviceBrand issue password : String) (dataSave : Bool)
    (hjz : jobID ≠ 0)
    (hnoJob : ∀ j ∈ st.jobs, j.jobID ≠ jobID)
    (hnoHH : ∀ h0 ∈ st.howHeard, h0.jobID ≠ jobID) :
    (submit st now jobID firstName lastName phone email doorNumber postCode
        howHeard deviceType deviceBrand issue password dataSave).1 =
      some SubmitError.howHeardFKViolation ∧
    (submit st now jobID firstName lastName phone email doorNumber postCode
        howHeard deviceType deviceBrand issue password dataSave).2.jobs = st.jobs ∧
    (submit st now jobID firstName lastName phone email doorNumber postCode
        howHeard deviceType deviceBrand issue password dataSave).2.howHeard =
      st.howHeard ∧
    ((submit st now jobID firstName lastName phone email doorNumber postCode
        howHeard deviceType deviceBrand issue password dataSave).2.customers =
          st.customers ∨
      (submit st now jobID firstName lastName phone email doorNumber postCode
        howHeard deviceType deviceBrand issue password dataSave).2.customers =
          st.customers ++
            [newCustomer st firstName lastName phone email postCode doorNumber]) := by
  rw [submit_eq st now jobID firstName lastName phone email doorNumber postCode
    howHeard deviceType deviceBrand issue password dataSave hjz]
  have hrj := resolveCustomer_jobs st firstName lastName phone email postCode doorNumber
  have hrh := resolveCustomer_howHeard st firstName lastName phone email postCode doorNumber
  have hjobs2 :
      (submitStep2
        (resolveCustomer st firstName lastName phone email postCode doorNumber).2
        (resolveCustomer st firstName lastName phone email postCode doorNumber).1
        deviceBrand deviceType issue (if dataSave then 1 else 0) password now jobID).jobs =
      st.jobs := by
    show ((resolveCustomer st firstName lastName phone email postCode doorNumber).2.jobs.map
        _) = st.jobs
    rw [hrj]
    have hid : ∀ j ∈ st.jobs,
        updateJobRow
          (resolveCustomer st firstName lastName phone email postCode doorNumber).1
          deviceBrand deviceType issue (if dataSave then 1 else 0) password now jobID j =
        j := by
      intro j hj
      unfold updateJobRow
      rw [if_neg (hnoJob j hj)]
    rw [List.map_congr_left hid]
    exact List.map_id _
  have hhh2 :
      (submitStep2
        (resolveCustomer st firstName lastName phone email postCode doorNumber).2
        (resolveCustomer st firstName lastName phone email postCode doorNumber).1
        deviceBrand deviceType issue (if dataSave then 1 else 0) password now jobID).howHeard =
      st.howHeard := hrh
  rw [submitStep3_fk _ jobID howHeard
    (by rintro ⟨h0, hm, he⟩; rw [hhh2] at hm; exact hnoHH h0 hm he)
    (by rintro ⟨j, hm, he⟩; rw [hjobs2] at hm; exact hnoJob j hm he)]
  refine ⟨rfl, hjobs2, hhh2, ?_⟩
  show (resolveCustomer st firstName lastName phone email postCode doorNumber).2.customers =
      st.customers ∨ _
  cases hfind : st.customers.find? (matchesTriple firstName lastName email) with
  | some c =>
    rw [resolveCustomer_found st firstName lastName phone email postCode doorNumber c hfind]
    exact Or.inl rfl
  | none =>
    rw [resolveCustomer_inserts st firstName lastName phone email postCode doorNumber hfind]
    exact Or.inr rfl

theorem finalize_missing_job_counterexample :
    (submit emptyState 100 5 "Jane" "Doe" "111" "jane@x.com" "12" "AB1" "web"
        "Laptop" "Dell" "broken" "pw" true).1 = some SubmitError.howHeardFKViolation ∧
    (submit emptyState 100 5 "Jane" "Doe" "111" "jane@x.com" "12" "AB1" "web"
        "Laptop" "Dell" "broken" "pw" true).2 ≠ emptyState ∧
    (submit emptyState 100 5 "Jane" "Doe" "111" "jane@x.com" "12" "AB1" "web"
        "Laptop" "Dell" "broken" "pw" true).2.customers.length =
      emptyState.customers.length + 1 := by
  decide

theorem finalize_missing_job_witness :
    (submit emptyState 100 7 "A" "B" "p" "e" "d" "pc" "hh" "dt" "db" "iss"
        "pw" false).1 = some SubmitError.howHeardFKViolation ∧
    (submit emptyState 100 7 "A" "B" "p" "e" "d" "pc" "hh" "dt" "db" "iss"
        "pw" false).2.jobs = emptyState.jobs ∧
    (submit emptyState 100 7 "A" "B" "p" "e" "d" "pc" "hh" "dt" "db" "iss"
        "pw" false).2.howHeard = emptyState.howHeard ∧
    ((submit emptyState 100 7 "A" "B" "p" "e" "d" "pc" "hh" "dt" "db" "iss"
        "pw" false).2.customers = emptyState.customers ∨
      (submit emptyState 100 7 "A" "B" "p" "e" "d" "pc" "hh" "dt" "db" "iss"
        "pw" false).2.customers =
        emptyState.customers ++ [newCustomer emptyState "A" "B" "p" "e" "pc" "d"]) :=
  finalize_missing_job_outcome emptyState 100 7 "A" "B" "p" "e" "d"
    "pc" "hh" "dt" "db" "iss" "pw" false (by decide) (by decide) (by decide)

/-- C3 (amended): FinalizeSubmission is not atomic.  Its three steps run as
separate statements with no enclosing transaction, so when the final
HowHeard insert fails with DuplicateHowHeard, the effects of the earlier
steps remain visible: with an identity matching no stored customer, the
newly inserted Customer row persists and the Job row with the given jobID
keeps the freshly written customer link, issue and start timestamp; only
the failing insert itself has no effect. -/
theorem finalize_failure_preserves_earlier_steps (st : DBState) (now : Int)
    (jobID : Nat)
    (firstName lastName phone email doorNumber postCode howHeard
      deviceType deviceBrand issue password : String) (dataSave : Bool)
    (hjz : jobID ≠ 0)
    (hdup : ∃ h0 ∈ st.howHeard, h0.jobID = jobID)
    (hnew : st.customers.find? (matchesTriple firstName lastName email) = none) :
    (submit st now jobID firstName lastName phone email doorNumber postCode
        howHeard deviceType deviceBrand issue password dataSave).1 =
      some SubmitError.duplicateHowHeard ∧
    (submit st now jobID firstName lastName phone email doorNumber postCode
        howHeard deviceType deviceBrand issue password dataSave).2.howHeard =
      st.howHeard ∧
    (submit st now jobID firstName lastName phone email doorNumber postCode
        howHeard deviceType deviceBrand issue password dataSave).2.customers =
      st.customers ++
        [newCustomer st firstName lastName phone email postCode doorNumber] ∧
    (∀ j ∈ (submit st now jobID firstName lastName phone email doorNumber postCode
        howHeard deviceType deviceBrand issue password dataSave).2.jobs,
      j.jobID = jobID →
        j.customerID = some st.nextCustomerId ∧ j.issue = some issue ∧
        j.startDate = some now) := by
  rw [submit_eq st now jobID firstName lastName phone email doorNumber postCode
    howHeard deviceType deviceBrand issue password dataSave hjz]
  rw [resolveCustomer_inserts st firstName lastName phone email postCode doorNumber hnew]
  have hdup2 : ∃ h0 ∈ (submitStep2
      { st with
          customers := st.customers ++
            [newCustomer st firstName lastName phone email postCode doorNumber]
          nextCustomerId := st.nextCustomerId + 1 }
      st.nextCustomerId deviceBrand deviceType issue (if dataSave then 1 else 0)
      password now jobID).howHeard, h0.jobID = jobID := hdup
  rw [submitStep3_dup _ jobID howHeard hdup2]
  refine ⟨rfl, rfl, rfl, ?_⟩
  intro j hj hid
  have hmem : j ∈ st.jobs.map
      (updateJobRow st.nextCustomerId deviceBrand deviceType issue
        (if dataSave then 1 else 0) password now jobID) := hj
  have := mem_map_updateJobRow hmem hid
  exact ⟨this.1, this.2.2.2.1, this.2.2.2.2.2.2.2⟩

theorem finalize_not_atomic_counterexample :
    (submit stDupHH 50 1 "Jane" "Doe" "111" "jane@x.com" "12" "AB1" "web"
        "Laptop" "Dell" "broken" "pw" true).1 = some SubmitError.duplicateHowHeard ∧
    (submit stDupHH 50 1 "Jane" "Doe" "111" "jane@x.com" "12" "AB1" "web"
        "Laptop" "Dell" "broken" "pw" true).2 ≠ stDupHH ∧
    (submit stDupHH 50 1 "Jane" "Doe" "111" "jane@x.com" "12" "AB1" "web"
        "Laptop" "Dell" "broken" "pw" true).2.customers.length =
      stDupHH.customers.length + 1 ∧
    (submit stDupHH 50 1 "Jane" "Doe" "111" "jane@x.com" "12" "AB1" "web"
        "Laptop" "Dell" "broken" "pw" true).2.jobs.map (fun j => j.customerID) =
      [some 1] := by
  decide

theorem finalize_not_atomic_witness :
    (submit stDupHH 50 1 "A" "B" "p" "e" "d" "pc" "hh" "dt" "db" "iss" "pw"
        false).1 = some SubmitError.duplicateHowHeard ∧
    (submit stDupHH 50 1 "A" "B" "p" "e" "d" "pc" "hh" "dt" "db" "iss" "pw"
        false).2.howHeard = stDupHH.howHeard ∧
    (submit stDupHH 50 1 "A" "B" "p" "e" "d" "pc" "hh" "dt" "db" "iss" "pw"
        false).2.customers =
      stDupHH.customers ++ [newCustomer stDupHH "A" "B" "p" "e" "pc" "d"] ∧
    (∀ j ∈ (submit stDupHH 50 1 "A" "B" "p" "e" "d" "pc" "hh" "dt" "db" "iss"
        "pw" false).2.jobs,
      j.jobID = 1 →
        j.customerID = some stDupHH.nextCustomerId ∧ j.issue = some "iss" ∧
        j.startDate = some 50) :=
  finalize_failure_preserves_earlier_steps stDupHH 50 1 "A" "B" "p" "e" "d" "pc"
    "hh" "dt" "db" "iss" "pw" false (by decide) (by decide) (by decide)

/-- C2 (amended): a second FinalizeSubmission call on an already finalized
jobID fails with DuplicateHowHeard, but the device fields of the Job do not
keep the values of the first call: the Job update of the second call has run
when the HowHeard insert is rejected, so after the failure the Job holds
the device brand, type, issue, data-save flag, password and
start timestamp of the second call; the first values survive only when both calls
supply identical values. -/
theorem second_finalize_overwrites_device_fields (st : DBState)
    (now1 now2 : Int) (jobID : Nat)
    (f1 l1 ph1 e1 dn1 pc1 hh1 dt1 db1 iss1 pw1 : String) (ds1 : Bool)
    (f2 l2 ph2 e2 dn2 pc2 hh2 dt2 db2 iss2 pw2 : String) (ds2 : Bool)
    (hfirst : (submit st now1 jobID f1 l1 ph1 e1 dn1 pc1 hh1 dt1 db1 iss1 pw1
      ds1).1 = none) :
    (submit (submit st now1 jobID f1 l1 ph1 e1 dn1 pc1 hh1 dt1 db1 iss1 pw1
        ds1).2 now2 jobID f2 l2 ph2 e2 dn2 pc2 hh2 dt2 db2 iss2 pw2 ds2).1 =
      some SubmitError.duplicateHowHeard ∧
    (∀ j ∈ (submit (submit st now1 jobID f1 l1 ph1 e1 dn1 pc1 hh1 dt1 db1 iss1
        pw1 ds1).2 now2 jobID f2 l2 ph2 e2 dn2 pc2 hh2 dt2 db2 iss2 pw2
        ds2).2.jobs,
      j.jobID = jobID →
        j.deviceBrand = some db2 ∧ j.deviceType = some dt2 ∧
        j.issue = some iss2 ∧ j.dataSave = some (if ds2 then 1 else 0) ∧
        j.password = some pw2 ∧ j.startDate = some now2) := by
  have hjz : jobID ≠ 0 := by
    intro h0
    rw [h0] at hfirst
    simp [submit] at hfirst
  rw [submit_eq st now1 jobID f1 l1 ph1 e1 dn1 pc1 hh1 dt1 db1 iss1 pw1 ds1 hjz] at hfirst ⊢
  set stA := submitStep2 (resolveCustomer st f1 l1 ph1 e1 pc1 dn1).2
    (resolveCustomer st f1 l1 ph1 e1 pc1 dn1).1 db1 dt1 iss1
    (if ds1 then 1 else 0) pw1 now1 jobID with hstA
  by_cases h1 : ∃ h0 ∈ stA.howHeard, h0.jobID = jobID
  · rw [submitStep3_dup stA jobID hh1 h1] at hfirst
    simp at hfirst
  by_cases h2 : ∃ j ∈ stA.jobs, j.jobID = jobID
  · rw [submitStep3_ok stA jobID hh1 h1 h2]
    rw [submit_eq _ now2 jobID f2 l2 ph2 e2 dn2 pc2 hh2 dt2 db2 iss2 pw2 ds2 hjz]
    have hdup2 : ∃ h0 ∈ (submitStep2
        (resolveCustomer
          { stA with howHeard := stA.howHeard ++ [{ jobID := jobID, howHeard := some hh1 }] }
          f2 l2 ph2 e2 pc2 dn2).2
        (resolveCustomer
          { stA with howHeard := stA.howHeard ++ [{ jobID := jobID, howHeard := some hh1 }] }
          f2 l2 ph2 e2 pc2 dn2).1
        db2 dt2 iss2 (if ds2 then 1 else 0) pw2 now2 jobID).howHeard,
        h0.jobID = jobID := by
      show ∃ h0 ∈ (resolveCustomer _ f2 l2 ph2 e2 pc2 dn2).2.howHeard, h0.jobID = jobID
      rw [resolveCustomer_howHeard]
      exact ⟨{ jobID := jobID, howHeard := some hh1 }, by simp, rfl⟩
    rw [submitStep3_dup _ jobID hh2 hdup2]
    refine ⟨rfl, ?_⟩
    intro j hj hid
    have hmem : j ∈ (resolveCustomer
        { stA with howHeard := stA.howHeard ++ [{ jobID := jobID, howHeard := some hh1 }] }
        f2 l2 ph2 e2 pc2 dn2).2.jobs.map
        (updateJobRow (resolveCustomer
            { stA with howHeard := stA.howHeard ++ [{ jobID := jobID, howHeard := some hh1 }] }
            f2 l2 ph2 e2 pc2 dn2).1
          db2 dt2 iss2 (if ds2 then 1 else 0) pw2 now2 jobID) := hj
    have := mem_map_updateJobRow hmem hid
    exact ⟨this.2.1, this.2.2.1, this.2.2.2.1, this.2.2.2.2.1,
      this.2.2.2.2.2.1, this.2.2.2.2.2.2.2⟩
  · rw [submitStep3_fk stA jobID hh1 h1 h2] at hfirst
    simp at hfirst

theorem second_finalize_counterexample :
    (submit stReserved 10 1 "Jane" "Doe" "111" "jane@x.com" "12" "AB1" "web"
        "Laptop" "Dell" "IssueA" "pw1" true).1 = none ∧
    (submit (submit stReserved 10 1 "Jane" "Doe" "111" "jane@x.com" "12" "AB1"
          "web" "Laptop" "Dell" "IssueA" "pw1" true).2
        20 1 "Jane" "Doe" "111" "jane@x.com" "12" "AB1" "web" "Laptop" "Dell"
        "IssueB" "pw2" true).1 = some SubmitError.duplicateHowHeard ∧
    (submit (submit stReserved 10 1 "Jane" "Doe" "111" "jane@x.com" "12" "AB1"
          "web" "Laptop" "Dell" "IssueA" "pw1" true).2
        20 1 "Jane" "Doe" "111" "jane@x.com" "12" "AB1" "web" "Laptop" "Dell"
        "IssueB" "pw2" true).2.jobs.map (fun j => j.issue) = [some "IssueB"] := by
  decide

theorem second_finalize_witness :
    (submit (submit stReserved 10 1 "Jane" "Doe" "111" "jane@x.com" "12" "AB1"
          "web" "Laptop" "Dell" "IssueA" "pw1" true).2
        20 1 "Jane" "Doe" "111" "jane@x.com" "12" "AB1" "web" "Laptop" "Dell"
        "IssueB" "pw2" true).1 = some SubmitError.duplicateHowHeard ∧
    (∀ j ∈ (submit (submit stReserved 10 1 "Jane" "Doe" "111" "jane@x.com" "12"
          "AB1" "web" "Laptop" "Dell" "IssueA" "pw1" true).2
        20 1 "Jane" "Doe" "111" "jane@x.com" "12" "AB1" "web" "Laptop" "Dell"
        "IssueB" "pw2" true).2.jobs,
      j.jobID = 1 →
        j.deviceBrand = some "Dell" ∧ j.deviceType = some "Laptop" ∧
        j.issue = some "IssueB" ∧ j.dataSave = some (if true then 1 else 0) ∧
        j.password = some "pw2" ∧ j.startDate = some 20) :=
  second_finalize_overwrites_device_fields stReserved 10 20 1 "Jane" "Doe" "111"
    "jane@x.com" "12" "AB1" "web" "Laptop" "Dell" "IssueA" "pw1" true "Jane"
    "Doe" "111" "jane@x.com" "12" "AB1" "web" "Laptop" "Dell" "IssueB" "pw2"
    true (by decide)

theorem scrubJobMulti_nil (j : Job) : scrubJobMulti [] j = j := by
  unfold scrubJobMulti
  cases h : j.customerID <;> simp [h]

theorem scrubJobMulti_cons (c : Nat) (cs : List Nat) (j : Job) :
    scrubJobMulti cs (scrubJob c j) = scrubJobMulti (c :: cs) j := by
  unfold scrubJob scrubJobMulti
  cases h : j.customerID with
  | none => simp [h]
  | some c0 =>
    by_cases hc : c0 = c
    · subst hc
      simp [h]
    · by_cases hm : c0 ∈ cs <;> simp [h, hc, hm, List.mem_cons]

theorem foldl_delete_jobs (cids : List Nat) (st : DBState) :
    (cids.foldl deleteCustomerRow st).jobs = st.jobs.map (scrubJobMulti cids) := by
  induction cids generalizing st with
  | nil =>
    show st.jobs = st.jobs.map (scrubJobMulti [])
    rw [List.map_congr_left (fun j _ => scrubJobMulti_nil j)]
    exact (List.map_id _).symm
  | cons c cs ih =>
    rw [List.foldl_cons, ih]
    show ((deleteCustomerRow st c).jobs).map (scrubJobMulti cs) =
      st.jobs.map (scrubJobMulti (c :: cs))
    have hd : (deleteCustomerRow st c).jobs = st.jobs.map (scrubJob c) := rfl
    rw [hd, List.map_map]
    exact List.map_congr_left (fun j _ => scrubJobMulti_cons c cs j)

theorem foldl_delete_customers (cids : List Nat) (st : DBState) :
    (cids.foldl deleteCustomerRow st).customers =
      st.customers.filter (fun c => c.customerID ∉ cids) := by
  induction cids generalizing st with
  | nil =>
    show st.customers = st.customers.filter (fun c => c.customerID ∉ ([] : List Nat))
    symm
    apply List.filter_eq_self.mpr
    intro a _
    simp
  | cons c cs ih =>
    rw [List.foldl_cons, ih]
    have hd : (deleteCustomerRow st c).customers =
        st.customers.filter (fun x => x.customerID ≠ c) := rfl
    rw [hd, List.filter_filter]
    apply List.filter_congr
    intro a _
    by_cases h1 : a.customerID = c <;> by_cases h2 : a.customerID ∈ cs <;>
      simp [h1, h2, List.mem_cons]

theorem jobsOfCustomer_scrubMulti (jobs : List Job) (sel : List Nat) (c : Nat)
    (hc : c ∉ sel) :
    jobsOfCustomer (jobs.map (scrubJobMulti sel)) c = jobsOfCustomer jobs c := by
  unfold jobsOfCustomer
  rw [List.filter_map]
  have h1 : jobs.filter
      ((fun j => decide (j.customerID = some c)) ∘ scrubJobMulti sel) =
      jobs.filter (fun j => decide (j.customerID = some c)) := by
    apply List.filter_congr
    intro j _
    show decide ((scrubJobMulti sel j).customerID = some c) =
      decide (j.customerID = some c)
    unfold scrubJobMulti
    cases h : j.customerID with
    | none => simp [h]
    | some c0 =>
      by_cases hm : c0 ∈ sel
      · have hne : c0 ≠ c := fun he => hc (he ▸ hm)
        simp [h, hm, hne]
      · simp [h, hm]
  rw [h1]
  have h2 : ∀ j ∈ jobs.filter (fun j => decide (j.customerID = some c)),
      scrubJobMulti sel j = j := by
    intro j hj
    have hcid : j.customerID = some c := of_decide_eq_true (List.mem_filter.mp hj).2
    unfold scrubJobMulti
    simp [hcid, hc]
  rw [List.map_congr_left h2]
  exact List.map_id _

theorem isExpired_map_scrub (jobs : List Job) (sel : List Nat) (cutoff : Int)
    (c : Nat) (hc : c ∉ sel) :
    isExpired (jobs.map (scrubJobMulti sel)) cutoff c = isExpired jobs cutoff c := by
  unfold isExpired maxStartDate
  rw [jobsOfCustomer_scrubMulti jobs sel c hc]

theorem expiredCustomerIds_idem (st : DBState) (cutoff : Int) :
    expiredCustomerIds
      (st.jobs.map (scrubJobMulti (expiredCustomerIds st.jobs cutoff))) cutoff = [] := by
  apply List.filter_eq_nil_iff.mpr
  intro c hcdedup
  rw [List.mem_dedup] at hcdedup
  obtain ⟨j1, hj1, hcid⟩ := List.mem_filterMap.mp hcdedup
  obtain ⟨j0, hj0, rfl⟩ := List.mem_map.mp hj1
  have key : j0.customerID = some c ∧ c ∉ expiredCustomerIds st.jobs cutoff := by
    unfold scrubJobMulti at hcid
    cases h : j0.customerID with
    | none => simp [h] at hcid
    | some c0 =>
      by_cases hm : c0 ∈ expiredCustomerIds st.jobs cutoff
      · simp [h, hm] at hcid
      · simp [h, hm] at hcid
        exact ⟨congrArg some hcid, hcid ▸ hm⟩

  intro habs
  have hmem : c ∈ (st.jobs.filterMap (fun j => j.customerID)).dedup :=
    List.mem_dedup.mpr (List.mem_filterMap.mpr ⟨j0, hj0, key.1⟩)
  rw [isExpired_map_scrub st.jobs (expiredCustomerIds st.jobs cutoff) cutoff c key.2] at habs
  exact key.2 (List.mem_filter.mpr ⟨hmem, habs⟩)

theorem sweep_of_sel_empty (st : DBState) (now retentionWindow : Int)
    (h : expiredCustomerIds st.jobs (now - retentionWindow) = []) :
    sweepExpiredCustomers st now retentionWindow =
      (0, { st with nextCustomerId := compactedSeq st.customers }) := by
  simp only [sweepExpiredCustomers]
  rw [h]
  simp

/-- C6: running the retention sweep twice in immediate succession with the
same clock and retention window makes the second run purge zero customers
and return exactly the state the first run produced. -/
theorem sweep_twice_purges_nothing (st : DBState) (now retentionWindow : Int) :
    (sweepExpiredCustomers (sweepExpiredCustomers st now retentionWindow).2
        now retentionWindow).1 = 0 ∧
    (sweepExpiredCustomers (sweepExpiredCustomers st now retentionWindow).2
        now retentionWindow).2 = (sweepExpiredCustomers st now retentionWindow).2 := by
  have hjobs1 : (sweepExpiredCustomers st now retentionWindow).2.jobs =
      st.jobs.map (scrubJobMulti (expiredCustomerIds st.jobs (now - retentionWindow))) := by
    show ((expiredCustomerIds st.jobs (now - retentionWindow)).foldl
      deleteCustomerRow st).jobs = _
    exact foldl_delete_jobs _ _
  have hsel2 : expiredCustomerIds (sweepExpiredCustomers st now retentionWindow).2.jobs
      (now - retentionWindow) = [] := by
    rw [hjobs1]
    exact expiredCustomerIds_idem st (now - retentionWindow)
  rw [sweep_of_sel_empty _ now retentionWindow hsel2]
  exact ⟨rfl, rfl⟩

theorem isExpired_iff (jobs : List Job) (cutoff : Int) (cid : Nat) :
    isExpired jobs cutoff cid = true ↔
      ((∃ j ∈ jobs, j.customerID = some cid ∧ j.startDate ≠ none) ∧
       ∀ j ∈ jobs, j.customerID = some cid →
         ∀ s : Int, j.startDate = some s → s < cutoff) := by
  unfold isExpired
  cases hmax : maxStartDate (jobsOfCustomer jobs cid) with
  | none =>
    unfold maxStartDate at hmax
    rw [listMax_eq_none_iff] at hmax
    constructor
    · intro habs
      simp at habs
    · rintro ⟨⟨j, hj, hcid, hsd⟩, _⟩
      exfalso
      obtain ⟨s, hs⟩ := Option.ne_none_iff_exists'.mp hsd
      have : s ∈ (jobsOfCustomer jobs cid).filterMap (fun j => j.startDate) :=
        List.mem_filterMap.mpr
          ⟨j, List.mem_filter.mpr ⟨hj, by simp [hcid]⟩, hs⟩
      rw [hmax] at this
      simp at this
  | some m =>
    unfold maxStartDate at hmax
    simp only [decide_eq_true_eq]
    constructor
    · intro hlt
      constructor
      · obtain ⟨j, hjf, hjs⟩ := List.mem_filterMap.mp (listMax_mem hmax)
        have hj := List.mem_filter.mp hjf
        exact ⟨j, hj.1, of_decide_eq_true hj.2, by rw [hjs]; simp⟩
      · intro j hj hcid s hs
        have hmem : s ∈ (jobsOfCustomer jobs cid).filterMap (fun j => j.startDate) :=
          List.mem_filterMap.mpr
            ⟨j, List.mem_filter.mpr ⟨hj, by simp [hcid]⟩, hs⟩
        exact lt_of_le_of_lt (le_listMax hmem hmax) hlt
    · rintro ⟨_, hall⟩
      obtain ⟨j1, hj1f, hj1s⟩ := List.mem_filterMap.mp (listMax_mem hmax)
      have hj1 := List.mem_filter.mp hj1f
      exact hall j1 hj1.1 (of_decide_eq_true hj1.2) m hj1s

theorem mem_expiredCustomerIds_iff (jobs : List Job) (cutoff : Int) (cid : Nat) :
    cid ∈ expiredCustomerIds jobs cutoff ↔ isExpired jobs cutoff cid = true := by
  unfold expiredCustomerIds
  rw [List.mem_filter, List.mem_dedup]
  constructor
  · rintro ⟨_, h⟩
    exact h
  · intro h
    refine ⟨?_, h⟩
    rcases (isExpired_iff jobs cutoff cid).mp h with ⟨⟨j, hj, hcid, _⟩, _⟩
    exact List.mem_filterMap.mpr ⟨j, hj, hcid⟩

/-- C4 (amended): the sweep purges exactly the customers that have at least
one Job row and whose maximum Job start timestamp is older than
now - retentionWindow.  Every customer with a Job started inside the window
is kept, and a customer with zero Job rows is also kept: the selection
query groups the jobs table, so jobless customers never appear in it. -/
theorem sweep_purge_characterization (st : DBState) (now retentionWindow : Int)
    (c : Customer) (hc : c ∈ st.customers) :
    c ∉ (sweepExpiredCustomers st now retentionWindow).2.customers ↔
      ((∃ j ∈ st.jobs, j.customerID = some c.customerID ∧ j.startDate ≠ none) ∧
       ∀ j ∈ st.jobs, j.customerID = some c.customerID →
         ∀ s : Int, j.startDate = some s → s < now - retentionWindow) := by
  have hcust : (sweepExpiredCustomers st now retentionWindow).2.customers =
      st.customers.filter
        (fun x => x.customerID ∉ expiredCustomerIds st.jobs (now - retentionWindow)) := by
    show ((expiredCustomerIds st.jobs (now - retentionWindow)).foldl
      deleteCustomerRow st).customers = _
    exact foldl_delete_customers _ _
  rw [hcust, ← isExpired_iff st.jobs (now - retentionWindow) c.customerID,
    ← mem_expiredCustomerIds_iff st.jobs (now - retentionWindow) c.customerID]
  constructor
  · intro hnot
    by_contra hmem
    exact hnot (List.mem_filter.mpr ⟨hc, by simpa using hmem⟩)
  · intro hmem hfil
    have h2 := (List.mem_filter.mp hfil).2
    simp at h2
    exact h2 hmem

theorem sweep_keeps_zero_job_customer_counterexample :
    (∀ j ∈ stZeroJobsCust.jobs, j.customerID ≠ some sampleCustomer.customerID) ∧
    (sweepExpiredCustomers stZeroJobsCust 1000 365).1 = 0 ∧
    sampleCustomer ∈ (sweepExpiredCustomers stZeroJobsCust 1000 365).2.customers := by
  decide

theorem sweep_purge_witness :
    sampleCustomer ∉ (sweepExpiredCustomers stOldJob 1000 365).2.customers := by
  apply (sweep_purge_characterization stOldJob 1000 365 sampleCustomer (by decide)).mpr
  refine ⟨⟨{ reservedJob 3 0 with customerID := some 7, password := some "secret" },
    by decide, by decide, by decide⟩, ?_⟩
  intro j hj hcid s hs
  have hj1 : j = { reservedJob 3 0 with customerID := some 7, password := some "secret" } := by
    simpa [stOldJob] using hj
  subst hj1
  have hs0 : s = 0 := by
    simpa [reservedJob] using hs.symm
  subst hs0
  decide

theorem compactedSeq_spec (cs : List Customer) :
    (cs = [] → compactedSeq cs = 1) ∧
    (cs ≠ [] → ∃ c ∈ cs, compactedSeq cs = c.customerID + 1 ∧
      ∀ c2 ∈ cs, c2.customerID ≤ c.customerID) := by
  constructor
  · intro h
    subst h
    rfl
  · intro h
    cases hmax : listMax (cs.map (fun c => c.customerID)) with
    | none =>
      exfalso
      have := listMax_eq_none_iff.mp hmax
      rw [List.map_eq_nil_iff] at this
      exact h this
    | some m =>
      obtain ⟨c, hcm, hcid⟩ := List.mem_map.mp (listMax_mem hmax)
      refine ⟨c, hcm, ?_, ?_⟩
      · unfold compactedSeq
        rw [if_neg (by simpa [List.isEmpty_iff] using h), hmax]
        simp [hcid]
      · intro c2 hc2
        have hle : c2.customerID ≤ m :=
          le_listMax (List.mem_map_of_mem (fun c => c.customerID) hc2) hmax
        omega

/-- C5: after the purge batch, the customer identifier sequence is set to 1
when zero customer rows remain, and to the maximum remaining customer
identifier plus one otherwise. -/
theorem sweep_compacts_sequence (st : DBState) (now retentionWindow : Int) :
    ((sweepExpiredCustomers st now retentionWindow).2.customers = [] →
      (sweepExpiredCustomers st now retentionWindow).2.nextCustomerId = 1) ∧
    ((sweepExpiredCustomers st now retentionWindow).2.customers ≠ [] →
      ∃ c ∈ (sweepExpiredCustomers st now retentionWindow).2.customers,
        (sweepExpiredCustomers st now retentionWindow).2.nextCustomerId =
          c.customerID + 1 ∧
        ∀ c2 ∈ (sweepExpiredCustomers st now retentionWindow).2.customers,
          c2.customerID ≤ c.customerID) :=
  compactedSeq_spec ((sweepExpiredCustomers st now retentionWindow).2.customers)

theorem sweep_compacts_sequence_witness :
    ∃ c ∈ (sweepExpiredCustomers stRecentJob 1000 365).2.customers,
      (sweepExpiredCustomers stRecentJob 1000 365).2.nextCustomerId =
        c.customerID + 1 ∧
      ∀ c2 ∈ (sweepExpiredCustomers stRecentJob 1000 365).2.customers,
        c2.customerID ≤ c.customerID :=
  (sweep_compacts_sequence stRecentJob 1000 365).2 (by decide)

/-- C9: deleting a customer row keeps every one of its jobs (same job
identifiers) with the customer reference nulled and the password cleared,
leaves jobs of other customers untouched, deletes exactly the
communications of the jobs of the deleted customer, and does not touch orders,
costs or payments. -/
theorem deleteCustomerRow_effects (st : DBState) (cid : Nat) :
    (deleteCustomerRow st cid).orders = st.orders ∧
    (deleteCustomerRow st cid).costs = st.costs ∧
    (deleteCustomerRow st cid).payments = st.payments ∧
    (deleteCustomerRow st cid).jobs.map (fun j => j.jobID) =
      st.jobs.map (fun j => j.jobID) ∧
    (∀ j ∈ st.jobs, j.customerID = some cid →
      { j with customerID := none, password := none } ∈ (deleteCustomerRow st cid).jobs) ∧
    (∀ j ∈ st.jobs, j.customerID ≠ some cid → j ∈ (deleteCustomerRow st cid).jobs) ∧
    (∀ com, com ∈ (deleteCustomerRow st cid).communications ↔
      (com ∈ st.communications ∧
        ∀ j ∈ st.jobs, j.customerID = some cid → com.jobID ≠ some j.jobID)) := by
  refine ⟨rfl, rfl, rfl, ?_, ?_, ?_, ?_⟩
  · show (st.jobs.map (scrubJob cid)).map _ = _
    rw [List.map_map]
    apply List.map_congr_left
    intro j _
    show (scrubJob cid j).jobID = j.jobID
    unfold scrubJob
    split <;> rfl
  · intro j hj hcid
    show _ ∈ st.jobs.map (scrubJob cid)
    have hs : scrubJob cid j = { j with customerID := none, password := none } := by
      unfold scrubJob
      rw [if_pos hcid]
    rw [← hs]
    exact List.mem_map_of_mem _ hj
  · intro j hj hcid
    show _ ∈ st.jobs.map (scrubJob cid)
    have hs : scrubJob cid j = j := by
      unfold scrubJob
      rw [if_neg hcid]
    rw [← hs]
    exact List.mem_map_of_mem _ hj
  · intro com
    show com ∈ st.communications.filter _ ↔ _
    rw [List.mem_filter]
    constructor
    · rintro ⟨hmem, hpred⟩
      refine ⟨hmem, ?_⟩
      intro j hj hcid heq
      exact (of_decide_eq_true hpred) ⟨j, hj, hcid, heq⟩
    · rintro ⟨hmem, hall⟩
      refine ⟨hmem, ?_⟩
      apply decide_eq_true
      rintro ⟨j, hj, hcid, heq⟩
      exact hall j hj hcid heq

theorem deleteCustomerRow_effects_witness :
    (deleteCustomerRow stOldJob 7).orders = stOldJob.orders ∧
    { { reservedJob 3 0 with customerID := some 7, password := some "secret" } with
        customerID := none, password := none } ∈ (deleteCustomerRow stOldJob 7).jobs :=
  ⟨(deleteCustomerRow_effects stOldJob 7).1,
    (deleteCustomerRow_effects stOldJob 7).2.2.2.2.1
      { reservedJob 3 0 with customerID := some 7, password := some "secret" }
      (by decide) (by decide)⟩

end DBDoc
